import Mathlib

/-
Verification development for the video transcoding routine
convert_video_to_h265 in src/code/video_converter.cpp.

The routine is a straight-line resource-acquisition cascade followed by a
nested read/decode/encode/write loop and a shared cleanup label.  All
effectful library calls (FFmpeg) are external; we embed the routine as a
deterministic interpreter over an oracle environment that fixes the result
of every library call, and the interpreter emits a trace of events plus the
final resource state.  Machine integers are modelled as unbounded Int; the
C result codes that the routine compares against are modelled by their
numeric values.  Null pointers are modelled as Option; dereferencing a null
or freed handle sets a fault flag and stops execution, and freeing a
dangling handle sets a double-free flag.
-/

/-- Value of AVERROR(EAGAIN) on Linux: -EAGAIN = -11. -/
def AVERROR_EAGAIN : Int := -11

/-- Value of AVERROR_EOF: the negated FFERRTAG of the four bytes E O F and
space, which is -0x20464F45 = -541478725. -/
def AVERROR_EOF : Int := -541478725

/-- Value of AV_NOPTS_VALUE: INT64_MIN. -/
def AV_NOPTS_VALUE : Int := -(2 ^ 63)

/-- Numeric code standing for the pixel format AV_PIX_FMT_YUV420P that the
routine fixes at line 107. -/
def AV_PIX_FMT_YUV420P : Int := 0

/-- Numeric code standing for AV_PIX_FMT_NONE, the format value of a freshly
allocated frame. -/
def AV_PIX_FMT_NONE : Int := -1

/-- Rational number as used by the library: numerator and denominator. -/
structure AVRational where
  num : Int
  den : Int
deriving DecidableEq

/-- Embedding of av_inv_q: swap numerator and denominator. -/
def av_inv_q (q : AVRational) : AVRational := ⟨q.den, q.num⟩

/-- Embedding of line 108 of the source: the encoder time base is the
inverse of the decoder frame rate when its numerator is nonzero (the C
condition dec_ctx->framerate.num), and otherwise the inverse of the input
stream r_frame_rate. -/
def enc_time_base (framerate r_frame_rate : AVRational) : AVRational :=
  av_inv_q (if framerate.num = 0 then r_frame_rate else framerate)

/-- Embedding of av_rescale_rnd with rounding mode AV_ROUND_NEAR_INF, the
mode used by av_rescale_q: compute a * b / c rounded to the nearest integer
with halfway cases away from zero.  The C source negates a negative first
argument, computes (a * b + c / 2) / c on nonnegative 64-bit values, and
negates the result back; overflow saturation is not modelled since the
claims under consideration stay far below 2^63.  On the nonnegative
operands used here Lean integer division agrees with C division. -/
def av_rescale_rnd_near_inf (a b c : Int) : Int :=
  if a < 0 then -(((-a) * b + c / 2) / c)
  else (a * b + c / 2) / c

/-- Embedding of av_rescale_q: rescale a from time base bq to time base cq
by exact rational arithmetic with near-inf rounding. -/
def av_rescale_q (a : Int) (bq cq : AVRational) : Int :=
  av_rescale_rnd_near_inf a (bq.num * cq.den) (cq.num * bq.den)

/-- Timestamp fields of an AVPacket that av_packet_rescale_ts touches. -/
structure AVPacketTs where
  pts : Int
  dts : Int
  duration : Int
deriving DecidableEq

/-- Embedding of av_packet_rescale_ts as called at line 223: pts and dts are
rescaled unless equal to AV_NOPTS_VALUE; a positive duration is rescaled. -/
def av_packet_rescale_ts (p : AVPacketTs) (src dst : AVRational) : AVPacketTs :=
  { pts := if p.pts = AV_NOPTS_VALUE then p.pts else av_rescale_q p.pts src dst
    dts := if p.dts = AV_NOPTS_VALUE then p.dts else av_rescale_q p.dts src dst
    duration := if 0 < p.duration then av_rescale_q p.duration src dst else p.duration }

/-- Outcome classification of one receive call inside a drain loop. -/
inductive DrainClass where
  | stop
  | fatal
  | produced
deriving DecidableEq

/-- Classification performed at lines 196-201 on the result of
avcodec_receive_frame: AVERROR(EAGAIN) and AVERROR_EOF break the drain,
any other negative result jumps to cleanup, a nonnegative result is a
decoded frame. -/
def recvFrameClassify (ret : Int) : DrainClass :=
  if ret = AVERROR_EAGAIN ∨ ret = AVERROR_EOF then .stop
  else if ret < 0 then .fatal
  else .produced

/-- Classification performed at lines 216-221 on the result of
avcodec_receive_packet: AVERROR(EAGAIN) and AVERROR_EOF break the drain,
any other negative result jumps to cleanup, a nonnegative result is an
encoded packet. -/
def recvPacketClassify (ret : Int) : DrainClass :=
  if ret = AVERROR_EAGAIN ∨ ret = AVERROR_EOF then .stop
  else if ret < 0 then .fatal
  else .produced

/-- Observable events of one execution of the routine, in program order.
Setup events record the success flag of the corresponding library call;
loop events record the integer result where the source inspects one. -/
inductive Event where
  | openInput (ok : Bool)
  | findStreamInfo (ok : Bool)
  | findBestStream (found : Bool)
  | findDecoder (ok : Bool)
  | allocDecCtx (ok : Bool)
  | paramsToCtx (ok : Bool)
  | openDecoder (ok : Bool)
  | allocOutputCtx (ok : Bool)
  | findEncoder (ok : Bool)
  | newStream (ok : Bool)
  | allocEncCtx (ok : Bool)
  | openEncoder (ok : Bool)
  | paramsFromCtx (ok : Bool)
  | setOutStreamTimeBase
  | avioOpen (ok : Bool)
  | writeHeader (ok : Bool)
  | allocFrameDecoded (ok : Bool)
  | allocFrameConverted (ok : Bool)
  | allocPacketIn (ok : Bool)
  | allocPacketOut (ok : Bool)
  | swsGetContext (ok : Bool)
  | imageAlloc (ok : Bool)
  | setFrameGeometry (w h fmt : Int)
  | readFrame (got : Bool)
  | sendPacket (ret : Int)
  | receiveFrame (ret : Int)
  | swsScale
  | setFramePts (pts : Int)
  | sendFrame (ret : Int)
  | receivePacket (ret : Int)
  | rescaleTs
  | writePacket (ret : Int)
  | unrefPacketOut
  | unrefFrame
  | unrefPacketIn
  | writeTrailer
  | freeSws
  | freeConvertedData
  | freeFrameConverted
  | freeFrameDecoded
  | freePacketIn
  | freePacketOut
  | closeAvio
  | freeEncCtx
  | freeDecCtx
  | closeInput
  | freeOutputCtx
deriving DecidableEq

/-- Oracle data for one iteration of the inner encoder drain: the result of
avcodec_receive_packet, the packet delivered when that result is
nonnegative, and the result of av_interleaved_write_frame for it. -/
structure EncStep where
  ret : Int
  pkt : AVPacketTs
  writeRet : Int
deriving DecidableEq

/-- Oracle data for one iteration of the decoder drain: the result of
avcodec_receive_frame, the pts of the delivered frame, the result of
avcodec_send_frame for the converted frame, and the encoder drain data. -/
structure FrameStep where
  recvRet : Int
  framePts : Int
  sendFrameRet : Int
  encSteps : List EncStep
deriving DecidableEq

/-- Oracle data for one successful av_read_frame: the stream index of the
packet, the result of avcodec_send_packet if it is submitted, and the
decoder drain data.  The list of ReadStep values ends when av_read_frame
reports end of input. -/
structure ReadStep where
  streamIdx : Nat
  sendPktRet : Int
  frameSteps : List FrameStep
deriving DecidableEq

/-- Fields of the converted frame that lines 181-184 and 206 write: width,
height, format and pts.  Pixel data is outside the model. -/
structure FrameGeom where
  width : Int
  height : Int
  format : Int
  pts : Int
deriving DecidableEq

/-- Nullness of the three buffers allocated without a check at lines
160-163 and dereferenced inside the loop. -/
structure BufFlags where
  pin : Bool
  pout : Bool
  fdec : Bool
deriving DecidableEq

/-- Way the transcode loop ended. -/
inductive LoopExit where
  | notReached
  | fault
  | broke
  | fatal
  | normal
deriving DecidableEq

/-- Way an inner drain ended: normally, by a jump to cleanup, or by a
dereference of a null buffer. -/
inductive InnerExit where
  | ok
  | fatal
  | fault
deriving DecidableEq

/-- Result of the encoder drain: the final value of the shared ret
variable, the events emitted, and how the drain ended. -/
structure EncDrainRes where
  ret : Int
  events : List Event
  exit : InnerExit
deriving DecidableEq

/-- Embedding of the inner encoder drain, lines 214-231.  The loop guard is
the shared variable ret; each pass calls avcodec_receive_packet (which
dereferences packet_out), classifies the result, and on a produced packet
rescales its timestamps, writes it, and unreferences it.  An exhausted
oracle list stands for the encoder answering AVERROR(EAGAIN) from then
on. -/
def encDrain (pout : Bool) : List EncStep → Int → EncDrainRes
  | [], ret =>
    if ret < 0 then ⟨ret, [], .ok⟩
    else if pout = false then ⟨ret, [], .fault⟩
    else ⟨AVERROR_EAGAIN, [Event.receivePacket AVERROR_EAGAIN], .ok⟩
  | s :: rest, ret =>
    if ret < 0 then ⟨ret, [], .ok⟩
    else if pout = false then ⟨ret, [], .fault⟩
    else
      match recvPacketClassify s.ret with
      | .stop => ⟨s.ret, [Event.receivePacket s.ret], .ok⟩
      | .fatal => ⟨s.ret, [Event.receivePacket s.ret], .fatal⟩
      | .produced =>
        if s.writeRet < 0 then
          ⟨s.ret, [Event.receivePacket s.ret, Event.rescaleTs, Event.writePacket s.writeRet], .fatal⟩
        else
          let r := encDrain pout rest s.ret
          ⟨r.ret,
           Event.receivePacket s.ret :: Event.rescaleTs :: Event.writePacket s.writeRet ::
             Event.unrefPacketOut :: r.events,
           r.exit⟩

/-- Result of the decoder drain: final ret, events, the converted frame
state, and how the drain ended. -/
structure DecDrainRes where
  ret : Int
  events : List Event
  frame : FrameGeom
  exit : InnerExit
deriving DecidableEq

/-- Embedding of the decoder drain, lines 194-233.  The loop guard is the
shared variable ret, which is overwritten by avcodec_receive_frame,
avcodec_send_frame, and the whole encoder drain; since the encoder drain
only ends with a negative ret, at most one produced frame is processed per
entry.  On a produced frame the converted frame pts is overwritten from the
decoded frame and the frame is sent to the encoder. -/
def decDrain (flags : BufFlags) : List FrameStep → Int → FrameGeom → DecDrainRes
  | [], ret, fc =>
    if ret < 0 then ⟨ret, [], fc, .ok⟩
    else if flags.fdec = false then ⟨ret, [], fc, .fault⟩
    else ⟨AVERROR_EAGAIN, [Event.receiveFrame AVERROR_EAGAIN], fc, .ok⟩
  | s :: rest, ret, fc =>
    if ret < 0 then ⟨ret, [], fc, .ok⟩
    else if flags.fdec = false then ⟨ret, [], fc, .fault⟩
    else
      match recvFrameClassify s.recvRet with
      | .stop => ⟨s.recvRet, [Event.receiveFrame s.recvRet], fc, .ok⟩
      | .fatal => ⟨s.recvRet, [Event.receiveFrame s.recvRet], fc, .fatal⟩
      | .produced =>
        let fc2 := { fc with pts := s.framePts }
        let evs :=
          [Event.receiveFrame s.recvRet, Event.swsScale, Event.setFramePts s.framePts,
           Event.sendFrame s.sendFrameRet]
        if s.sendFrameRet < 0 then ⟨s.sendFrameRet, evs, fc2, .fatal⟩
        else
          let r := encDrain flags.pout s.encSteps s.sendFrameRet
          match r.exit with
          | .fatal => ⟨r.ret, evs ++ r.events, fc2, .fatal⟩
          | .fault => ⟨r.ret, evs ++ r.events, fc2, .fault⟩
          | .ok =>
            let r2 := decDrain flags rest r.ret fc2
            ⟨r2.ret, evs ++ r.events ++ (Event.unrefFrame :: r2.events), r2.frame, r2.exit⟩

/-- Result of the whole transcode loop. -/
structure LoopRes where
  events : List Event
  frame : FrameGeom
  exit : LoopExit
deriving DecidableEq

/-- Embedding of the outer read loop, lines 187-236.  Each av_read_frame
dereferences packet_in.  A packet of another stream is only unreferenced.
A failing avcodec_send_packet breaks out of the loop (line 192), which
skips the unref and falls through to the trailer write; a fatal drain
result jumps to cleanup. -/
def mainLoop (flags : BufFlags) (vidIdx : Nat) : List ReadStep → FrameGeom → LoopRes
  | [], fc =>
    if flags.pin = false then ⟨[], fc, .fault⟩
    else ⟨[Event.readFrame false], fc, .normal⟩
  | r :: rest, fc =>
    if flags.pin = false then ⟨[], fc, .fault⟩
    else
      if r.streamIdx = vidIdx then
        if r.sendPktRet < 0 then
          ⟨[Event.readFrame true, Event.sendPacket r.sendPktRet], fc, .broke⟩
        else
          let d := decDrain flags r.frameSteps r.sendPktRet fc
          match d.exit with
          | .fatal => ⟨Event.readFrame true :: Event.sendPacket r.sendPktRet :: d.events, d.frame, .fatal⟩
          | .fault => ⟨Event.readFrame true :: Event.sendPacket r.sendPktRet :: d.events, d.frame, .fault⟩
          | .ok =>
            let rec2 := mainLoop flags vidIdx rest d.frame
            ⟨Event.readFrame true :: Event.sendPacket r.sendPktRet ::
               (d.events ++ (Event.unrefPacketIn :: rec2.events)), rec2.frame, rec2.exit⟩
      else
        let rec2 := mainLoop flags vidIdx rest fc
        ⟨Event.readFrame true :: Event.unrefPacketIn :: rec2.events, rec2.frame, rec2.exit⟩

/-- Handle state of one native resource: none is a null pointer, some true
is a live allocation, some false is a non-null pointer whose object has
already been freed. -/
def isDangling : Option Bool → Bool
  | some false => true
  | _ => false

/-- Resource state at the cleanup label, one field per handle that lines
242-254 touch.  outNoFile records the AVFMT_NOFILE flag of the output
format; outPb is the avio handle stored inside the output context. -/
structure TDState where
  sws : Option Bool
  frameConverted : Option Bool
  fcData0 : Option Bool
  frameDecoded : Option Bool
  packetIn : Option Bool
  packetOut : Option Bool
  outCtx : Option Bool
  outNoFile : Bool
  outPb : Option Bool
  encCtx : Option Bool
  decCtx : Option Bool
  inCtx : Option Bool
deriving DecidableEq

/-- Result of the cleanup sequence: the resource state afterwards, the
release events performed, whether a null or freed pointer was dereferenced,
and whether an already freed object was freed again. -/
structure TDRes where
  state : TDState
  events : List Event
  fault : Bool
  doubleFree : Bool
deriving DecidableEq

/-- Embedding of the cleanup label, lines 241-254, executed on an arbitrary
resource state.  sws_freeContext (guarded by a non-null test) and
avformat_free_context free their argument without nulling the variable, so
they leave a dangling handle; av_freep, av_frame_free, av_packet_free,
avio_closep, avcodec_free_context and avformat_close_input free and null.
Line 244 dereferences frame_converted with no null test before freeing its
data pointer, and line 249 dereferences out_fmt_ctx to read the format
flags. -/
def teardown (s : TDState) : TDRes :=
  let swsEvs : List Event := if s.sws.isSome then [Event.freeSws] else []
  let sws2 : Option Bool := if s.sws.isSome then some false else none
  let df1 := isDangling s.sws
  match s.frameConverted with
  | none => ⟨{ s with sws := sws2 }, swsEvs, true, df1⟩
  | some false => ⟨{ s with sws := sws2 }, swsEvs, true, df1⟩
  | some true =>
    let dfA := df1 || isDangling s.fcData0 || isDangling s.frameDecoded ||
      isDangling s.packetIn || isDangling s.packetOut
    let evsA := swsEvs ++
      [Event.freeConvertedData, Event.freeFrameConverted, Event.freeFrameDecoded,
       Event.freePacketIn, Event.freePacketOut]
    match s.outCtx with
    | some false =>
      ⟨{ s with
          sws := sws2
          frameConverted := none
          fcData0 := none
          frameDecoded := none
          packetIn := none
          packetOut := none }, evsA, true, dfA⟩
    | none =>
      ⟨{ s with
          sws := sws2
          frameConverted := none
          fcData0 := none
          frameDecoded := none
          packetIn := none
          packetOut := none
          encCtx := none
          decCtx := none
          inCtx := none },
       evsA ++ [Event.freeEncCtx, Event.freeDecCtx, Event.closeInput],
       false,
       dfA || isDangling s.encCtx || isDangling s.decCtx || isDangling s.inCtx⟩
    | some true =>
      let avioEvs : List Event := if s.outNoFile then [] else [Event.closeAvio]
      let dfB := dfA || (if s.outNoFile then false else isDangling s.outPb) ||
        isDangling s.encCtx || isDangling s.decCtx || isDangling s.inCtx
      ⟨{ sws := sws2
         frameConverted := none
         fcData0 := none
         frameDecoded := none
         packetIn := none
         packetOut := none
         outCtx := some false
         outNoFile := s.outNoFile
         outPb := if s.outNoFile then s.outPb else none
         encCtx := none
         decCtx := none
         inCtx := none },
       evsA ++ avioEvs ++
         [Event.freeEncCtx, Event.freeDecCtx, Event.closeInput, Event.freeOutputCtx],
       false, dfB⟩

/-- Oracle environment for one execution: the result of every fallible
library call in program order, the decoder parameters the routine reads,
and the loop oracle. -/
structure Env where
  openInputOk : Bool
  findStreamInfoOk : Bool
  bestStreamFound : Bool
  vidIdx : Nat
  decoderFound : Bool
  decCtxOk : Bool
  paramsToCtxOk : Bool
  decOpenOk : Bool
  outCtxOk : Bool
  encoderFound : Bool
  newStreamOk : Bool
  encCtxOk : Bool
  encOpenOk : Bool
  paramsFromCtxOk : Bool
  oformatNoFile : Bool
  avioOpenOk : Bool
  writeHeaderOk : Bool
  frameDecodedOk : Bool
  frameConvertedOk : Bool
  packetInOk : Bool
  packetOutOk : Bool
  swsOk : Bool
  imageAllocOk : Bool
  decWidth : Int
  decHeight : Int
  decPixFmt : Int
  framerate : AVRational
  rFrameRate : AVRational
  reads : List ReadStep
deriving DecidableEq

/-- Result of one whole execution of the routine. -/
structure RunResult where
  trace : List Event
  loopExit : LoopExit
  reachedLoop : Bool
  frame : Option FrameGeom
  fault : Bool
  doubleFree : Bool
deriving DecidableEq

/-- Option Bool handle built from an allocation success flag. -/
def handleOf (ok : Bool) : Option Bool := if ok then some true else none

/-- Resource state at the cleanup label for an execution whose setup got
past the header write: the format and codec contexts are live, the four
unchecked buffers are null exactly when their allocation failed, and the
scaler and image data reflect how far lines 166-180 got. -/
def tdStateAt (env : Env) (swsLive dataLive : Bool) : TDState :=
  { sws := handleOf swsLive
    frameConverted := handleOf env.frameConvertedOk
    fcData0 := handleOf dataLive
    frameDecoded := handleOf env.frameDecodedOk
    packetIn := handleOf env.packetInOk
    packetOut := handleOf env.packetOutOk
    outCtx := some true
    outNoFile := env.oformatNoFile
    outPb := if env.oformatNoFile then none else some true
    encCtx := some true
    decCtx := some true
    inCtx := some true }

/-- Early-exit result for a failure during setup, before the cleanup label
is reachable: the trace holds the events up to and including the inline
releases of the failing return statement. -/
def earlyExit (t : List Event) : RunResult :=
  ⟨t, .notReached, false, none, false, false⟩

/-- Tail of the routine from the transcode loop on, lines 186-255: run the
loop, then write the trailer on a normal exit or on the break of line 192,
skip it on a jump to cleanup, and run the cleanup label; a null-buffer
dereference inside the loop stops execution before cleanup.  pre holds the
trace accumulated by the setup. -/
def runLoop (env : Env) (vidIdx : Nat) (pre : List Event) : RunResult :=
  let fc0 : FrameGeom := ⟨env.decWidth, env.decHeight, AV_PIX_FMT_YUV420P, 0⟩
  let flags : BufFlags := ⟨env.packetInOk, env.packetOutOk, env.frameDecodedOk⟩
  let m := mainLoop flags vidIdx env.reads fc0
  if m.exit = .fault then ⟨pre ++ m.events, .fault, true, some m.frame, true, false⟩
  else if m.exit = .fatal then
    let td := teardown (tdStateAt env true true)
    ⟨pre ++ m.events ++ td.events, .fatal, true, some m.frame, td.fault, td.doubleFree⟩
  else
    let td := teardown (tdStateAt env true true)
    ⟨pre ++ m.events ++ (Event.writeTrailer :: td.events), m.exit, true, some m.frame,
     td.fault, td.doubleFree⟩

/-- Part of the routine after the header write, lines 159-184: the four
unchecked buffer allocations, the scaler, the image buffer (line 175
dereferences the possibly null frame_converted before the cleanup label
could run, which is a fault), the geometry assignment, and then the loop
tail. -/
def runPost (env : Env) (vidIdx : Nat) (pre : List Event) : RunResult :=
  let pre16 := pre ++
    [Event.allocFrameDecoded env.frameDecodedOk, Event.allocFrameConverted env.frameConvertedOk,
     Event.allocPacketIn env.packetInOk, Event.allocPacketOut env.packetOutOk,
     Event.swsGetContext env.swsOk]
  if env.swsOk = false then
    let td := teardown (tdStateAt env false false)
    ⟨pre16 ++ td.events, .notReached, false, none, td.fault, td.doubleFree⟩
  else if env.frameConvertedOk = false then
    ⟨pre16, .notReached, false, none, true, false⟩
  else
    let pre17 := pre16 ++ [Event.imageAlloc env.imageAllocOk]
    if env.imageAllocOk = false then
      let td := teardown (tdStateAt env true false)
      ⟨pre17 ++ td.events, .notReached, false, none, td.fault, td.doubleFree⟩
    else
      runLoop env vidIdx (pre17 ++
        [Event.setFrameGeometry env.decWidth env.decHeight AV_PIX_FMT_YUV420P,
         Event.setFramePts 0])

/-- Header-write step, lines 147-157, shared by the file-backed and
no-file output paths: on failure the avio handle is closed when one was
opened, the contexts are freed, and the call returns; on success the
post-header part runs. -/
def runHeader (env : Env) (vidIdx : Nat) (pre : List Event) (hasAvio : Bool) : RunResult :=
  let pre15 := pre ++ [Event.writeHeader env.writeHeaderOk]
  if env.writeHeaderOk = false then
    earlyExit (pre15 ++ (if hasAvio then [Event.closeAvio] else []) ++
      [Event.freeEncCtx, Event.freeOutputCtx, Event.freeDecCtx, Event.closeInput])
  else runPost env vidIdx pre15

/-- Embedding of convert_video_to_h265, lines 13-255: the acquisition
cascade with its early-return release lists, then the avio open when the
output format needs a file, the header write, and the post-header part.
Every event list in an early-return branch copies the free calls of the
corresponding return statement in the source. -/
def run (env : Env) : RunResult :=
  let e1 := Event.openInput env.openInputOk
  if env.openInputOk = false then earlyExit [e1] else
  let e2 := Event.findStreamInfo env.findStreamInfoOk
  if env.findStreamInfoOk = false then earlyExit [e1, e2, Event.closeInput] else
  let e3 := Event.findBestStream env.bestStreamFound
  if env.bestStreamFound = false then earlyExit [e1, e2, e3, Event.closeInput] else
  let e4 := Event.findDecoder env.decoderFound
  if env.decoderFound = false then earlyExit [e1, e2, e3, e4, Event.closeInput] else
  let e5 := Event.allocDecCtx env.decCtxOk
  if env.decCtxOk = false then earlyExit [e1, e2, e3, e4, e5, Event.closeInput] else
  let e6 := Event.paramsToCtx env.paramsToCtxOk
  if env.paramsToCtxOk = false then
    earlyExit [e1, e2, e3, e4, e5, e6, Event.freeDecCtx, Event.closeInput] else
  let e7 := Event.openDecoder env.decOpenOk
  if env.decOpenOk = false then
    earlyExit [e1, e2, e3, e4, e5, e6, e7, Event.freeDecCtx, Event.closeInput] else
  let e8 := Event.allocOutputCtx env.outCtxOk
  if env.outCtxOk = false then
    earlyExit [e1, e2, e3, e4, e5, e6, e7, e8, Event.freeDecCtx, Event.closeInput] else
  let e9 := Event.findEncoder env.encoderFound
  if env.encoderFound = false then
    earlyExit [e1, e2, e3, e4, e5, e6, e7, e8, e9, Event.freeOutputCtx, Event.freeDecCtx,
      Event.closeInput] else
  let e10 := Event.newStream env.newStreamOk
  if env.newStreamOk = false then
    earlyExit [e1, e2, e3, e4, e5, e6, e7, e8, e9, e10, Event.freeOutputCtx, Event.freeDecCtx,
      Event.closeInput] else
  let e11 := Event.allocEncCtx env.encCtxOk
  if env.encCtxOk = false then
    earlyExit [e1, e2, e3, e4, e5, e6, e7, e8, e9, e10, e11, Event.freeOutputCtx,
      Event.freeDecCtx, Event.closeInput] else
  let e12 := Event.openEncoder env.encOpenOk
  if env.encOpenOk = false then
    earlyExit [e1, e2, e3, e4, e5, e6, e7, e8, e9, e10, e11, e12, Event.freeEncCtx,
      Event.freeOutputCtx, Event.freeDecCtx, Event.closeInput] else
  let e13 := Event.paramsFromCtx env.paramsFromCtxOk
  if env.paramsFromCtxOk = false then
    earlyExit [e1, e2, e3, e4, e5, e6, e7, e8, e9, e10, e11, e12, e13, Event.freeEncCtx,
      Event.freeOutputCtx, Event.freeDecCtx, Event.closeInput] else
  let pre14 := [e1, e2, e3, e4, e5, e6, e7, e8, e9, e10, e11, e12, e13,
    Event.setOutStreamTimeBase]
  if env.oformatNoFile = false then
    let preA := pre14 ++ [Event.avioOpen env.avioOpenOk]
    if env.avioOpenOk = false then
      earlyExit (preA ++ [Event.freeEncCtx, Event.freeOutputCtx, Event.freeDecCtx,
        Event.closeInput])
    else runHeader env env.vidIdx preA true
  else runHeader env env.vidIdx pre14 false

/-- Counters of a behavioural codec pair: packets sent to the decoder,
frames received from it, frames sent to the encoder, packets received from
it.  A codec with delay k delivers output i only after input i + k has been
submitted, and answers AVERROR(EAGAIN) before that; this is the send and
receive contract of the library, instantiated for codecs that buffer k
inputs (for HEVC with B-frames and lookahead, k is well above zero). -/
structure SimSt where
  dIn : Nat
  dOut : Nat
  eIn : Nat
  eOut : Nat
deriving DecidableEq

/-- Helper running at most fuel passes of the encoder drain loop; every
pass increases eOut by one, so eIn - eOut strictly decreases and a fuel of
eIn - eOut runs the loop to completion. -/
def encDrainGo (eDelay : Nat) : Nat → SimSt → SimSt
  | 0, st => st
  | fuel + 1, st =>
    if eDelay < st.eIn - st.eOut then encDrainGo eDelay fuel { st with eOut := st.eOut + 1 }
    else st

/-- Embedding of the encoder drain, lines 214-231, against a delay-k
encoder whose writes succeed: packets are received and written while more
than eDelay frames are buffered; the loop then breaks on EAGAIN. -/
def encDrainSim (eDelay : Nat) (st : SimSt) : SimSt :=
  encDrainGo eDelay (st.eIn - st.eOut) st

/-- Embedding of the decoder drain, lines 194-233, against delay-bounded
codecs.  A frame is received if more than dDelay packets are buffered, then
converted and sent to the encoder, and the encoder drain runs.  In the
source the drains share the variable ret, and the encoder drain only exits
with ret equal to AVERROR(EAGAIN) or AVERROR_EOF, so the while guard of the
decoder drain (ret greater or equal 0) fails right after the first produced
frame; the second recursion step is therefore unrolled to its immediate
result here. -/
def decDrainSim (dDelay eDelay : Nat) (ret : Int) (st : SimSt) : Int × SimSt :=
  if ret < 0 then (ret, st)
  else if dDelay < st.dIn - st.dOut then
    let st1 := { st with dOut := st.dOut + 1, eIn := st.eIn + 1 }
    (AVERROR_EAGAIN, encDrainSim eDelay st1)
  else (AVERROR_EAGAIN, st)

/-- Embedding of the read loop, lines 187-236, for an input whose packets
all belong to the selected video stream and are accepted by the decoder:
each packet is submitted (ret becomes 0) and the decoder drain runs.  After
the last packet av_read_frame reports end of input and the loop exits; the
source then writes the trailer and never submits a flush packet or flush
frame, so whatever the codecs still buffer is abandoned. -/
def loopSim (dDelay eDelay : Nat) : Nat → SimSt → SimSt
  | 0, st => st
  | n + 1, st =>
    let st1 := { st with dIn := st.dIn + 1 }
    loopSim dDelay eDelay n (decDrainSim dDelay eDelay 0 st1).2

/-- Number of encoded packets the routine writes for an input of n video
packets, one frame per packet, against a delay dDelay decoder and a delay
eDelay encoder. -/
def transcodedPackets (dDelay eDelay n : Nat) : Nat :=
  (loopSim dDelay eDelay n ⟨0, 0, 0, 0⟩).eOut

/-- Recognizer for the output time base assignment of line 133. -/
def isSetOutTB : Event → Bool
  | .setOutStreamTimeBase => true
  | _ => false

/-- Recognizer for a successful encoder open, line 115. -/
def isEncOpenOk : Event → Bool
  | .openEncoder b => b
  | _ => false

/-- Recognizer for the trailer write of line 239. -/
def isWriteTrailer : Event → Bool
  | .writeTrailer => true
  | _ => false

/-- Recognizer for a successful header write, line 148. -/
def isWriteHeaderOk : Event → Bool
  | .writeHeader b => b
  | _ => false

/-- Recognizer for a call of av_read_frame. -/
def isReadFrame : Event → Bool
  | .readFrame _ => true
  | _ => false

/-- Recognizer for the converted frame geometry assignment of lines
181-183. -/
def isSetGeom : Event → Bool
  | .setFrameGeometry _ _ _ => true
  | _ => false

/-- Recognizer for a failing avcodec_send_packet, line 189. -/
def isSendPacketFail : Event → Bool
  | .sendPacket r => decide (r < 0)
  | _ => false

/-- Recognizer for the events a loop iteration can emit. -/
def loopEvent : Event → Bool
  | .readFrame _ => true
  | .sendPacket _ => true
  | .receiveFrame _ => true
  | .swsScale => true
  | .setFramePts _ => true
  | .sendFrame _ => true
  | .receivePacket _ => true
  | .rescaleTs => true
  | .writePacket _ => true
  | .unrefPacketOut => true
  | .unrefFrame => true
  | .unrefPacketIn => true
  | _ => false

/-- Recognizer for the events the cleanup label can emit. -/
def tdEvent : Event → Bool
  | .freeSws => true
  | .freeConvertedData => true
  | .freeFrameConverted => true
  | .freeFrameDecoded => true
  | .freePacketIn => true
  | .freePacketOut => true
  | .closeAvio => true
  | .freeEncCtx => true
  | .freeDecCtx => true
  | .closeInput => true
  | .freeOutputCtx => true
  | _ => false

/-- Helper scanning a trace left to right: true when every event matched
by trig is preceded by some earlier event matched by req, given that seen
records whether a req event has occurred already. -/
def precededByAux (req trig : Event → Bool) : Bool → List Event → Bool
  | _, [] => true
  | seen, e :: rest =>
    if trig e && !seen then false
    else precededByAux req trig (seen || req e) rest

/-- True when every event matched by trig has an earlier event matched by
req in the list. -/
def precededBy (req trig : Event → Bool) (l : List Event) : Bool :=
  precededByAux req trig false l

/-- Frame rate 30 over 1, used by the concrete executions below. -/
def fr30 : AVRational := ⟨30, 1⟩

/-- Environment in which every library call succeeds and the input is
empty: the loop sees end of input at once. -/
def envAllOk : Env :=
  { openInputOk := true
    findStreamInfoOk := true
    bestStreamFound := true
    vidIdx := 0
    decoderFound := true
    decCtxOk := true
    paramsToCtxOk := true
    decOpenOk := true
    outCtxOk := true
    encoderFound := true
    newStreamOk := true
    encCtxOk := true
    encOpenOk := true
    paramsFromCtxOk := true
    oformatNoFile := false
    avioOpenOk := true
    writeHeaderOk := true
    frameDecodedOk := true
    frameConvertedOk := true
    packetInOk := true
    packetOutOk := true
    swsOk := true
    imageAllocOk := true
    decWidth := 1280
    decHeight := 720
    decPixFmt := 0
    framerate := fr30
    rFrameRate := fr30
    reads := [] }

/-- Environment whose single video packet is rejected by
avcodec_send_packet with result -22: the loop breaks at line 192. -/
def envBreak : Env := { envAllOk with reads := [⟨0, -22, []⟩] }

/-- Environment whose single video packet is accepted but whose
avcodec_receive_frame fails with -22: a fatal decode receive error. -/
def envFatalRecv : Env := { envAllOk with reads := [⟨0, 0, [⟨-22, 0, 0, []⟩]⟩] }

/-- Environment in which the allocation of the converted frame fails
(av_frame_alloc returns null, unchecked at line 161) and sws_getContext
fails, so control reaches the cleanup label with frame_converted null. -/
def envNullFrame : Env := { envAllOk with frameConvertedOk := false, swsOk := false }

/-- Fully acquired resource state, as at the cleanup label after a normal
loop exit with every allocation live. -/
def tdFull : TDState :=
  ⟨some true, some true, some true, some true, some true, some true, some true, false,
   some true, some true, some true, some true⟩

theorem precededByAux_true (req trig : Event → Bool) (l : List Event) :
    precededByAux req trig true l = true := by
  induction l with
  | nil => rfl
  | cons e rest ih => simp [precededByAux, ih]

theorem precededByAux_no_trig (req trig : Event → Bool) (l : List Event)
    (h : ∀ e ∈ l, trig e = false) (b : Bool) : precededByAux req trig b l = true := by
  induction l generalizing b with
  | nil => rfl
  | cons e rest ih =>
    have he := h e (by simp)
    simp [precededByAux, he]
    exact ih (fun x hx => h x (by simp [hx])) _

theorem countP_zero_of_all {p q : Event → Bool} (l : List Event) (hl : l.all q = true)
    (hpq : ∀ e, q e = true → p e = false) : l.countP p = 0 := by
  refine List.countP_eq_zero.mpr ?_
  intro a ha
  have hq := List.all_eq_true.mp hl a ha
  simp [hpq a hq]


theorem encDrain_all_loop (pout : Bool) (steps : List EncStep) :
    ∀ (ret : Int) (e : Event), e ∈ (encDrain pout steps ret).events → loopEvent e = true := by
  induction steps with
  | nil =>
    intro ret e he
    simp only [encDrain] at he
    split at he
    · simp at he
    · split at he
      · simp at he
      · simp at he
        subst he
        rfl
  | cons s rest ih =>
    intro ret e he
    simp only [encDrain] at he
    split at he
    · simp at he
    · split at he
      · simp at he
      · split at he
        · simp at he
          subst he
          rfl
        · simp at he
          subst he
          rfl
        · split at he
          · simp at he
            rcases he with rfl | rfl | rfl <;> rfl
          · simp at he
            rcases he with rfl | rfl | rfl | rfl | hm
            · rfl
            · rfl
            · rfl
            · rfl
            · exact ih s.ret e hm

theorem decDrain_all_loop (flags : BufFlags) (steps : List FrameStep) :
    ∀ (ret : Int) (fc : FrameGeom) (e : Event),
      e ∈ (decDrain flags steps ret fc).events → loopEvent e = true := by
  induction steps with
  | nil =>
    intro ret fc e he
    simp only [decDrain] at he
    split at he
    · simp at he
    · split at he
      · simp at he
      · simp at he
        subst he
        rfl
  | cons s rest ih =>
    intro ret fc e he
    simp only [decDrain] at he
    split at he
    · simp at he
    · split at he
      · simp at he
      · split at he
        · simp at he
          subst he
          rfl
        · simp at he
          subst he
          rfl
        · split at he
          · simp at he
            rcases he with rfl | rfl | rfl | rfl <;> rfl
          · split at he
            · simp at he
              rcases he with rfl | rfl | rfl | rfl | hm
              · rfl
              · rfl
              · rfl
              · rfl
              · exact encDrain_all_loop flags.pout s.encSteps s.sendFrameRet e hm
            · simp at he
              rcases he with rfl | rfl | rfl | rfl | hm
              · rfl
              · rfl
              · rfl
              · rfl
              · exact encDrain_all_loop flags.pout s.encSteps s.sendFrameRet e hm
            · simp at he
              rcases he with rfl | rfl | rfl | rfl | hm | rfl | hm2
              · rfl
              · rfl
              · rfl
              · rfl
              · exact encDrain_all_loop flags.pout s.encSteps s.sendFrameRet e hm
              · rfl
              · exact ih _ _ e hm2

theorem mainLoop_all_loop (flags : BufFlags) (vidIdx : Nat) (reads : List ReadStep) :
    ∀ (fc : FrameGeom) (e : Event),
      e ∈ (mainLoop flags vidIdx reads fc).events → loopEvent e = true := by
  induction reads with
  | nil =>
    intro fc e he
    simp only [mainLoop] at he
    split at he
    · simp at he
    · simp at he
      subst he
      rfl
  | cons r rest ih =>
    intro fc e he
    simp only [mainLoop] at he
    split at he
    · simp at he
    · split at he
      · split at he
        · simp at he
          rcases he with rfl | rfl <;> rfl
        · split at he
          · simp at he
            rcases he with rfl | rfl | hm
            · rfl
            · rfl
            · exact decDrain_all_loop flags r.frameSteps r.sendPktRet fc e hm
          · simp at he
            rcases he with rfl | rfl | hm
            · rfl
            · rfl
            · exact decDrain_all_loop flags r.frameSteps r.sendPktRet fc e hm
          · simp at he
            rcases he with rfl | rfl | hm | rfl | hm2
            · rfl
            · rfl
            · exact decDrain_all_loop flags r.frameSteps r.sendPktRet fc e hm
            · rfl
            · exact ih _ e hm2
      · simp at he
        rcases he with rfl | rfl | hm
        · rfl
        · rfl
        · exact ih _ e hm

theorem teardown_all_td (s : TDState) : ((teardown s).events.all tdEvent) = true := by
  simp only [teardown]
  repeat' split
  all_goals rfl

theorem loopEvent_not_setTB : ∀ e, loopEvent e = true → isSetOutTB e = false := by
  intro e
  cases e <;> simp [loopEvent, isSetOutTB]

theorem loopEvent_not_trailer : ∀ e, loopEvent e = true → isWriteTrailer e = false := by
  intro e
  cases e <;> simp [loopEvent, isWriteTrailer]

theorem loopEvent_not_geom : ∀ e, loopEvent e = true → isSetGeom e = false := by
  intro e
  cases e <;> simp [loopEvent, isSetGeom]

theorem tdEvent_not_setTB : ∀ e, tdEvent e = true → isSetOutTB e = false := by
  intro e
  cases e <;> simp [tdEvent, isSetOutTB]

theorem tdEvent_not_trailer : ∀ e, tdEvent e = true → isWriteTrailer e = false := by
  intro e
  cases e <;> simp [tdEvent, isWriteTrailer]

theorem tdEvent_not_geom : ∀ e, tdEvent e = true → isSetGeom e = false := by
  intro e
  cases e <;> simp [tdEvent, isSetGeom]

theorem tdEvent_not_read : ∀ e, tdEvent e = true → isReadFrame e = false := by
  intro e
  cases e <;> simp [tdEvent, isReadFrame]

theorem countP_zero_of_mem {p q : Event → Bool} (l : List Event)
    (hl : ∀ e ∈ l, q e = true) (hpq : ∀ e, q e = true → p e = false) : l.countP p = 0 := by
  refine List.countP_eq_zero.mpr ?_
  intro a ha
  simp [hpq a (hl a ha)]

@[simp] theorem mainLoop_countP_setTB (f : BufFlags) (v : Nat) (rds : List ReadStep)
    (fc : FrameGeom) : ((mainLoop f v rds fc).events.countP isSetOutTB) = 0 :=
  countP_zero_of_mem _ (mainLoop_all_loop f v rds fc) loopEvent_not_setTB

@[simp] theorem mainLoop_countP_trailer (f : BufFlags) (v : Nat) (rds : List ReadStep)
    (fc : FrameGeom) : ((mainLoop f v rds fc).events.countP isWriteTrailer) = 0 :=
  countP_zero_of_mem _ (mainLoop_all_loop f v rds fc) loopEvent_not_trailer

@[simp] theorem mainLoop_countP_geom (f : BufFlags) (v : Nat) (rds : List ReadStep)
    (fc : FrameGeom) : ((mainLoop f v rds fc).events.countP isSetGeom) = 0 :=
  countP_zero_of_mem _ (mainLoop_all_loop f v rds fc) loopEvent_not_geom

@[simp] theorem teardown_countP_setTB (s : TDState) :
    ((teardown s).events.countP isSetOutTB) = 0 :=
  countP_zero_of_mem _ (fun e he => List.all_eq_true.mp (teardown_all_td s) e he) tdEvent_not_setTB

@[simp] theorem teardown_countP_trailer (s : TDState) :
    ((teardown s).events.countP isWriteTrailer) = 0 :=
  countP_zero_of_mem _ (fun e he => List.all_eq_true.mp (teardown_all_td s) e he) tdEvent_not_trailer

@[simp] theorem teardown_countP_geom (s : TDState) :
    ((teardown s).events.countP isSetGeom) = 0 :=
  countP_zero_of_mem _ (fun e he => List.all_eq_true.mp (teardown_all_td s) e he) tdEvent_not_geom

attribute [simp] precededByAux_true

@[simp] theorem precededByAux_geom_td (s : TDState) (b : Bool) :
    precededByAux isSetGeom isReadFrame b (teardown s).events = true :=
  precededByAux_no_trig _ _ _
    (fun e he => tdEvent_not_read e (List.all_eq_true.mp (teardown_all_td s) e he)) b

theorem decDrain_geom (flags : BufFlags) (steps : List FrameStep) :
    ∀ (ret : Int) (fc : FrameGeom),
      (decDrain flags steps ret fc).frame.width = fc.width ∧
      (decDrain flags steps ret fc).frame.height = fc.height ∧
      (decDrain flags steps ret fc).frame.format = fc.format := by
  induction steps with
  | nil =>
    intro ret fc
    simp only [decDrain]
    repeat' split
    all_goals simp
  | cons s rest ih =>
    intro ret fc
    simp only [decDrain]
    repeat' split
    all_goals simp_all

theorem mainLoop_geom (flags : BufFlags) (vidIdx : Nat) (reads : List ReadStep) :
    ∀ fc : FrameGeom,
      (mainLoop flags vidIdx reads fc).frame.width = fc.width ∧
      (mainLoop flags vidIdx reads fc).frame.height = fc.height ∧
      (mainLoop flags vidIdx reads fc).frame.format = fc.format := by
  induction reads with
  | nil =>
    intro fc
    simp only [mainLoop]
    repeat' split
    all_goals simp
  | cons r rest ih =>
    intro fc
    simp only [mainLoop]
    repeat' split
    all_goals simp_all [decDrain_geom flags r.frameSteps r.sendPktRet fc]

theorem av_rescale_rnd_mono (b c : Int) (hb : 0 < b) (hc : 0 < c) :
    ∀ x y : Int, x ≤ y → av_rescale_rnd_near_inf x b c ≤ av_rescale_rnd_near_inf y b c := by
  intro x y hxy
  have hc2 : 0 ≤ c / 2 := Int.ediv_nonneg hc.le (by norm_num)
  unfold av_rescale_rnd_near_inf
  by_cases hx : x < 0 <;> by_cases hy : y < 0 <;> simp only [hx, hy, if_pos, if_neg, if_true, if_false]
  · have hnum : -y * b + c / 2 ≤ -x * b + c / 2 := by nlinarith
    have := Int.ediv_le_ediv hc hnum
    omega
  · have h1 : 0 ≤ (-x * b + c / 2) / c := Int.ediv_nonneg (by nlinarith) hc.le
    have h2 : 0 ≤ (y * b + c / 2) / c := Int.ediv_nonneg (by nlinarith) hc.le
    omega
  · omega
  · have hnum : x * b + c / 2 ≤ y * b + c / 2 := by nlinarith
    exact Int.ediv_le_ediv hc hnum

theorem av_rescale_q_mono (src dst : AVRational) (h1 : 0 < src.num) (h2 : 0 < src.den)
    (h3 : 0 < dst.num) (h4 : 0 < dst.den) :
    ∀ x y : Int, x ≤ y → av_rescale_q x src dst ≤ av_rescale_q y src dst := by
  intro x y hxy
  unfold av_rescale_q
  exact av_rescale_rnd_mono _ _ (by positivity) (by positivity) x y hxy

@[simp] theorem mainLoop_frame_width (flags : BufFlags) (vidIdx : Nat) (reads : List ReadStep)
    (fc : FrameGeom) : (mainLoop flags vidIdx reads fc).frame.width = fc.width :=
  (mainLoop_geom flags vidIdx reads fc).1

@[simp] theorem mainLoop_frame_height (flags : BufFlags) (vidIdx : Nat) (reads : List ReadStep)
    (fc : FrameGeom) : (mainLoop flags vidIdx reads fc).frame.height = fc.height :=
  (mainLoop_geom flags vidIdx reads fc).2.1

@[simp] theorem mainLoop_frame_format (flags : BufFlags) (vidIdx : Nat) (reads : List ReadStep)
    (fc : FrameGeom) : (mainLoop flags vidIdx reads fc).frame.format = fc.format :=
  (mainLoop_geom flags vidIdx reads fc).2.2

/-- C3: the claim asserts that conversion preserves the video frame count
within one frame.  The routine never flushes the decoder or the encoder at
end of input (no null send at lines 187-239), so every frame still buffered
inside the encoder when av_read_frame reports end of input is lost.
Against a decoder of delay 0 and an encoder of delay 2, a five-packet input
carrying five frames yields only three written packets, a deficit of two
frames, violating the claimed tolerance of one. -/
theorem c3_output_frame_count_short_by_codec_delay :
    transcodedPackets 0 2 5 = 3 ∧ 1 < 5 - transcodedPackets 0 2 5 := by decide

/-- C5: in both drain loops the receive results AVERROR(EAGAIN) and
AVERROR_EOF stop the drain without being fatal, every other negative
result is fatal, and a nonnegative result produces output; the three
outcomes are pairwise distinct, and the drains of the routine act on
exactly this classification. -/
theorem c5_drain_classification :
    (recvFrameClassify AVERROR_EAGAIN = DrainClass.stop ∧
     recvFrameClassify AVERROR_EOF = DrainClass.stop ∧
     (∀ r : Int, r < 0 → r ≠ AVERROR_EAGAIN → r ≠ AVERROR_EOF →
        recvFrameClassify r = DrainClass.fatal) ∧
     (∀ r : Int, 0 ≤ r → recvFrameClassify r = DrainClass.produced)) ∧
    (recvPacketClassify AVERROR_EAGAIN = DrainClass.stop ∧
     recvPacketClassify AVERROR_EOF = DrainClass.stop ∧
     (∀ r : Int, r < 0 → r ≠ AVERROR_EAGAIN → r ≠ AVERROR_EOF →
        recvPacketClassify r = DrainClass.fatal) ∧
     (∀ r : Int, 0 ≤ r → recvPacketClassify r = DrainClass.produced)) ∧
    (DrainClass.stop ≠ DrainClass.fatal ∧ DrainClass.stop ≠ DrainClass.produced ∧
     DrainClass.fatal ≠ DrainClass.produced) ∧
    (∀ (flags : BufFlags) (s : FrameStep) (rest : List FrameStep) (ret : Int) (fc : FrameGeom),
       0 ≤ ret → flags.fdec = true → recvFrameClassify s.recvRet = DrainClass.stop →
       decDrain flags (s :: rest) ret fc =
         ⟨s.recvRet, [Event.receiveFrame s.recvRet], fc, InnerExit.ok⟩) ∧
    (∀ (flags : BufFlags) (s : FrameStep) (rest : List FrameStep) (ret : Int) (fc : FrameGeom),
       0 ≤ ret → flags.fdec = true → recvFrameClassify s.recvRet = DrainClass.fatal →
       decDrain flags (s :: rest) ret fc =
         ⟨s.recvRet, [Event.receiveFrame s.recvRet], fc, InnerExit.fatal⟩) ∧
    (∀ (pout : Bool) (s : EncStep) (rest : List EncStep) (ret : Int),
       0 ≤ ret → pout = true → recvPacketClassify s.ret = DrainClass.stop →
       encDrain pout (s :: rest) ret = ⟨s.ret, [Event.receivePacket s.ret], InnerExit.ok⟩) ∧
    (∀ (pout : Bool) (s : EncStep) (rest : List EncStep) (ret : Int),
       0 ≤ ret → pout = true → recvPacketClassify s.ret = DrainClass.fatal →
       encDrain pout (s :: rest) ret = ⟨s.ret, [Event.receivePacket s.ret], InnerExit.fatal⟩) := by
  refine ⟨⟨by decide, by decide, ?_, ?_⟩, ⟨by decide, by decide, ?_, ?_⟩,
    ⟨by decide, by decide, by decide⟩, ?_, ?_, ?_, ?_⟩
  · intro r h1 h2 h3
    simp [recvFrameClassify, h1, h2, h3]
  · intro r h0
    unfold recvFrameClassify AVERROR_EAGAIN AVERROR_EOF
    have hne : ¬(r = -11 ∨ r = -541478725) := by omega
    have hnl : ¬r < 0 := by omega
    simp [hne, hnl]
  · intro r h1 h2 h3
    simp [recvPacketClassify, h1, h2, h3]
  · intro r h0
    unfold recvPacketClassify AVERROR_EAGAIN AVERROR_EOF
    have hne : ¬(r = -11 ∨ r = -541478725) := by omega
    have hnl : ¬r < 0 := by omega
    simp [hne, hnl]
  · intro flags s rest ret fc h0 hf hcl
    simp [decDrain, Int.not_lt.mpr h0, hf, hcl]
  · intro flags s rest ret fc h0 hf hcl
    simp [decDrain, Int.not_lt.mpr h0, hf, hcl]
  · intro pout s rest ret h0 hp hcl
    simp [encDrain, Int.not_lt.mpr h0, hp, hcl]
  · intro pout s rest ret h0 hp hcl
    simp [encDrain, Int.not_lt.mpr h0, hp, hcl]

/-- Witness for C5 at the concrete result -22: a negative result other
than AVERROR(EAGAIN) and AVERROR_EOF is classified fatal. -/
theorem c5_witness : recvFrameClassify (-22) = DrainClass.fatal :=
  c5_drain_classification.1.2.2.1 (-22) (by decide) (by decide) (by decide)

/-- C6: rescaling a monotonically non-decreasing sequence of presentation
timestamps from the encoder time base to the output stream time base with
av_packet_rescale_ts (exact rational rescaling with near-inf rounding)
yields a monotonically non-decreasing sequence, for positive time bases
and timestamps that are set (not AV_NOPTS_VALUE). -/
theorem c6_rescale_preserves_pts_order :
    ∀ src dst : AVRational, 0 < src.num → 0 < src.den → 0 < dst.num → 0 < dst.den →
    ∀ ps : List AVPacketTs, (∀ p ∈ ps, p.pts ≠ AV_NOPTS_VALUE) →
    List.Chain' (fun a b => a.pts ≤ b.pts) ps →
    List.Chain' (fun a b => a.pts ≤ b.pts)
      (ps.map (fun p => av_packet_rescale_ts p src dst)) := by
  intro src dst h1 h2 h3 h4 ps
  induction ps with
  | nil => simp
  | cons a l ih =>
    intro hnp hch
    cases l with
    | nil => simp
    | cons b t =>
      rw [List.map_cons, List.map_cons, List.chain'_cons]
      rw [List.chain'_cons] at hch
      refine ⟨?_, ?_⟩
      · have ha := hnp a (by simp)
        have hb := hnp b (by simp)
        simp only [av_packet_rescale_ts, ha, hb, if_neg, if_false]
        exact av_rescale_q_mono src dst h1 h2 h3 h4 _ _ hch.1
      · have := ih (fun p hp => hnp p (by simp [hp])) hch.2
        simpa using this

/-- Witness for C6 at two packets with pts 0 and 3000, rescaled from time
base 1/30 to 1/90000. -/
theorem c6_witness :
    List.Chain' (fun a b => a.pts ≤ b.pts)
      (([⟨0, 0, 1⟩, ⟨3000, 0, 1⟩] : List AVPacketTs).map
        (fun p => av_packet_rescale_ts p ⟨1, 30⟩ ⟨1, 90000⟩)) :=
  c6_rescale_preserves_pts_order ⟨1, 30⟩ ⟨1, 90000⟩ (by decide) (by decide) (by decide)
    (by decide) _ (by decide) (by simp)

/-- C7: line 108 sets the encoder time base to the inverse of the decoder
frame rate when that frame rate is nonzero (nonzero numerator), and
otherwise to the inverse of the input stream stated frame rate. -/
theorem c7_enc_time_base_selection :
    ∀ framerate r_frame_rate : AVRational,
      (framerate.num ≠ 0 →
        enc_time_base framerate r_frame_rate = av_inv_q framerate) ∧
      (framerate.num = 0 →
        enc_time_base framerate r_frame_rate = av_inv_q r_frame_rate) := by
  intro fr r
  constructor <;> intro h <;> simp [enc_time_base, h]

/-- Witness for C7 at frame rate 30/1 and stream rate 25/1. -/
theorem c7_witness :
    enc_time_base ⟨30, 1⟩ ⟨25, 1⟩ = av_inv_q ⟨30, 1⟩ :=
  (c7_enc_time_base_selection ⟨30, 1⟩ ⟨25, 1⟩).1 (by decide)

/-- C8: a packet whose stream index differs from the selected video stream
contributes exactly an av_read_frame and an av_packet_unref to the
execution, leaves the converted frame untouched, and the loop continues
with the next read; nothing is sent to the decoder or encoder and nothing
is written. -/
theorem c8_foreign_packet_discarded :
    ∀ (flags : BufFlags) (vid : Nat) (r : ReadStep) (rest : List ReadStep) (fc : FrameGeom),
      flags.pin = true → r.streamIdx ≠ vid →
      mainLoop flags vid (r :: rest) fc =
        ⟨Event.readFrame true :: Event.unrefPacketIn :: (mainLoop flags vid rest fc).events,
         (mainLoop flags vid rest fc).frame, (mainLoop flags vid rest fc).exit⟩ := by
  intro flags vid r rest fc hp hs
  simp [mainLoop, hp, hs]

/-- Witness for C8 at a concrete packet of stream 1 while stream 0 is
selected. -/
theorem c8_witness :
    mainLoop ⟨true, true, true⟩ 0 [⟨1, 0, []⟩] ⟨0, 0, 0, 0⟩ =
      ⟨Event.readFrame true :: Event.unrefPacketIn ::
         (mainLoop ⟨true, true, true⟩ 0 [] ⟨0, 0, 0, 0⟩).events,
       (mainLoop ⟨true, true, true⟩ 0 [] ⟨0, 0, 0, 0⟩).frame,
       (mainLoop ⟨true, true, true⟩ 0 [] ⟨0, 0, 0, 0⟩).exit⟩ :=
  c8_foreign_packet_discarded ⟨true, true, true⟩ 0 ⟨1, 0, []⟩ [] ⟨0, 0, 0, 0⟩ rfl (by decide)

set_option maxHeartbeats 2000000 in
/-- Characterization of the trace of one whole execution, shared by the
temporal and frame-effect claims: the output time base assignment occurs at
most once, only after a successful encoder open, and exactly once when the
loop is reached; the trailer is written only after a successful header
write, never on a fatal loop exit, and exactly once on the break of line
192; the converted frame geometry is assigned at most once, exactly once
when the loop is reached, before any read, and the final converted frame
keeps the encoder geometry. -/
theorem run_trace_props (env : Env) (r : RunResult) (hr : r = run env) :
    r.trace.countP isSetOutTB ≤ 1 ∧
    precededBy isEncOpenOk isSetOutTB r.trace = true ∧
    (r.reachedLoop = true → r.trace.countP isSetOutTB = 1) ∧
    precededBy isWriteHeaderOk isWriteTrailer r.trace = true ∧
    (r.loopExit = LoopExit.fatal → r.trace.countP isWriteTrailer = 0) ∧
    (r.loopExit = LoopExit.broke → r.trace.countP isWriteTrailer = 1) ∧
    r.trace.countP isSetGeom ≤ 1 ∧
    (r.reachedLoop = true → r.trace.countP isSetGeom = 1) ∧
    precededBy isSetGeom isReadFrame r.trace = true ∧
    (r.reachedLoop = true →
      r.frame.map FrameGeom.width = some env.decWidth ∧
      r.frame.map FrameGeom.height = some env.decHeight ∧
      r.frame.map FrameGeom.format = some AV_PIX_FMT_YUV420P) := by
  simp only [run, runHeader, runPost, runLoop, earlyExit] at hr
  by_cases h1 : env.openInputOk = false
  · simp only [h1, if_true, if_false, ite_true, ite_false, Bool.not_eq_true, not_false_eq_true, List.append_assoc, List.cons_append, List.nil_append] at hr
    subst hr
    simp_all [precededBy, precededByAux, isWriteHeaderOk, isWriteTrailer, isSetOutTB, isEncOpenOk, isSetGeom, isReadFrame, List.countP_append, List.countP_cons, List.countP_nil]
  ·
    by_cases h2 : env.findStreamInfoOk = false
    · simp only [h1, h2, if_true, if_false, ite_true, ite_false, Bool.not_eq_true, not_false_eq_true, List.append_assoc, List.cons_append, List.nil_append] at hr
      subst hr
      simp_all [precededBy, precededByAux, isWriteHeaderOk, isWriteTrailer, isSetOutTB, isEncOpenOk, isSetGeom, isReadFrame, List.countP_append, List.countP_cons, List.countP_nil]
    ·
      by_cases h3 : env.bestStreamFound = false
      · simp only [h1, h2, h3, if_true, if_false, ite_true, ite_false, Bool.not_eq_true, not_false_eq_true, List.append_assoc, List.cons_append, List.nil_append] at hr
        subst hr
        simp_all [precededBy, precededByAux, isWriteHeaderOk, isWriteTrailer, isSetOutTB, isEncOpenOk, isSetGeom, isReadFrame, List.countP_append, List.countP_cons, List.countP_nil]
      ·
        by_cases h4 : env.decoderFound = false
        · simp only [h1, h2, h3, h4, if_true, if_false, ite_true, ite_false, Bool.not_eq_true, not_false_eq_true, List.append_assoc, List.cons_append, List.nil_append] at hr
          subst hr
          simp_all [precededBy, precededByAux, isWriteHeaderOk, isWriteTrailer, isSetOutTB, isEncOpenOk, isSetGeom, isReadFrame, List.countP_append, List.countP_cons, List.countP_nil]
        ·
          by_cases h5 : env.decCtxOk = false
          · simp only [h1, h2, h3, h4, h5, if_true, if_false, ite_true, ite_false, Bool.not_eq_true, not_false_eq_true, List.append_assoc, List.cons_append, List.nil_append] at hr
            subst hr
            simp_all [precededBy, precededByAux, isWriteHeaderOk, isWriteTrailer, isSetOutTB, isEncOpenOk, isSetGeom, isReadFrame, List.countP_append, List.countP_cons, List.countP_nil]
          ·
            by_cases h6 : env.paramsToCtxOk = false
            · simp only [h1, h2, h3, h4, h5, h6, if_true, if_false, ite_true, ite_false, Bool.not_eq_true, not_false_eq_true, List.append_assoc, List.cons_append, List.nil_append] at hr
              subst hr
              simp_all [precededBy, precededByAux, isWriteHeaderOk, isWriteTrailer, isSetOutTB, isEncOpenOk, isSetGeom, isReadFrame, List.countP_append, List.countP_cons, List.countP_nil]
            ·
              by_cases h7 : env.decOpenOk = false
              · simp only [h1, h2, h3, h4, h5, h6, h7, if_true, if_false, ite_true, ite_false, Bool.not_eq_true, not_false_eq_true, List.append_assoc, List.cons_append, List.nil_append] at hr
                subst hr
                simp_all [precededBy, precededByAux, isWriteHeaderOk, isWriteTrailer, isSetOutTB, isEncOpenOk, isSetGeom, isReadFrame, List.countP_append, List.countP_cons, List.countP_nil]
              ·
                by_cases h8 : env.outCtxOk = false
                · simp only [h1, h2, h3, h4, h5, h6, h7, h8, if_true, if_false, ite_true, ite_false, Bool.not_eq_true, not_false_eq_true, List.append_assoc, List.cons_append, List.nil_append] at hr
                  subst hr
                  simp_all [precededBy, precededByAux, isWriteHeaderOk, isWriteTrailer, isSetOutTB, isEncOpenOk, isSetGeom, isReadFrame, List.countP_append, List.countP_cons, List.countP_nil]
                ·
                  by_cases h9 : env.encoderFound = false
                  · simp only [h1, h2, h3, h4, h5, h6, h7, h8, h9, if_true, if_false, ite_true, ite_false, Bool.not_eq_true, not_false_eq_true, List.append_assoc, List.cons_append, List.nil_append] at hr
                    subst hr
                    simp_all [precededBy, precededByAux, isWriteHeaderOk, isWriteTrailer, isSetOutTB, isEncOpenOk, isSetGeom, isReadFrame, List.countP_append, List.countP_cons, List.countP_nil]
                  ·
                    by_cases h10 : env.newStreamOk = false
                    · simp only [h1, h2, h3, h4, h5, h6, h7, h8, h9, h10, if_true, if_false, ite_true, ite_false, Bool.not_eq_true, not_false_eq_true, List.append_assoc, List.cons_append, List.nil_append] at hr
                      subst hr
                      simp_all [precededBy, precededByAux, isWriteHeaderOk, isWriteTrailer, isSetOutTB, isEncOpenOk, isSetGeom, isReadFrame, List.countP_append, List.countP_cons, List.countP_nil]
                    ·
                      by_cases h11 : env.encCtxOk = false
                      · simp only [h1, h2, h3, h4, h5, h6, h7, h8, h9, h10, h11, if_true, if_false, ite_true, ite_false, Bool.not_eq_true, not_false_eq_true, List.append_assoc, List.cons_append, List.nil_append] at hr
                        subst hr
                        simp_all [precededBy, precededByAux, isWriteHeaderOk, isWriteTrailer, isSetOutTB, isEncOpenOk, isSetGeom, isReadFrame, List.countP_append, List.countP_cons, List.countP_nil]
                      ·
                        by_cases h12 : env.encOpenOk = false
                        · simp only [h1, h2, h3, h4, h5, h6, h7, h8, h9, h10, h11, h12, if_true, if_false, ite_true, ite_false, Bool.not_eq_true, not_false_eq_true, List.append_assoc, List.cons_append, List.nil_append] at hr
                          subst hr
                          simp_all [precededBy, precededByAux, isWriteHeaderOk, isWriteTrailer, isSetOutTB, isEncOpenOk, isSetGeom, isReadFrame, List.countP_append, List.countP_cons, List.countP_nil]
                        ·
                          by_cases h13 : env.paramsFromCtxOk = false
                          · simp only [h1, h2, h3, h4, h5, h6, h7, h8, h9, h10, h11, h12, h13, if_true, if_false, ite_true, ite_false, Bool.not_eq_true, not_false_eq_true, List.append_assoc, List.cons_append, List.nil_append] at hr
                            subst hr
                            simp_all [precededBy, precededByAux, isWriteHeaderOk, isWriteTrailer, isSetOutTB, isEncOpenOk, isSetGeom, isReadFrame, List.countP_append, List.countP_cons, List.countP_nil]
                          ·
                            by_cases hnf : env.oformatNoFile = false
                            · by_cases hav : env.avioOpenOk = false
                              · simp only [h1, h2, h3, h4, h5, h6, h7, h8, h9, h10, h11, h12, h13, hnf, hav, if_true, if_false, ite_true, ite_false, Bool.not_eq_true, not_false_eq_true, List.append_assoc, List.cons_append, List.nil_append] at hr
                                subst hr
                                simp_all [precededBy, precededByAux, isWriteHeaderOk, isWriteTrailer, isSetOutTB, isEncOpenOk, isSetGeom, isReadFrame, List.countP_append, List.countP_cons, List.countP_nil]
                              ·
                                by_cases hwh : env.writeHeaderOk = false
                                · simp only [h1, h2, h3, h4, h5, h6, h7, h8, h9, h10, h11, h12, h13, hnf, hav, hwh, if_true, if_false, ite_true, ite_false, Bool.not_eq_true, not_false_eq_true, List.append_assoc, List.cons_append, List.nil_append] at hr
                                  subst hr
                                  simp_all [precededBy, precededByAux, isWriteHeaderOk, isWriteTrailer, isSetOutTB, isEncOpenOk, isSetGeom, isReadFrame, List.countP_append, List.countP_cons, List.countP_nil]
                                ·
                                  by_cases hsw : env.swsOk = false
                                  · simp only [h1, h2, h3, h4, h5, h6, h7, h8, h9, h10, h11, h12, h13, hnf, hav, hwh, hsw, if_true, if_false, ite_true, ite_false, Bool.not_eq_true, not_false_eq_true, List.append_assoc, List.cons_append, List.nil_append] at hr
                                    subst hr
                                    simp_all [precededBy, precededByAux, isWriteHeaderOk, isWriteTrailer, isSetOutTB, isEncOpenOk, isSetGeom, isReadFrame, List.countP_append, List.countP_cons, List.countP_nil]
                                  · by_cases hfc : env.frameConvertedOk = false
                                    · simp only [h1, h2, h3, h4, h5, h6, h7, h8, h9, h10, h11, h12, h13, hnf, hav, hwh, hsw, hfc, if_true, if_false, ite_true, ite_false, Bool.not_eq_true, not_false_eq_true, List.append_assoc, List.cons_append, List.nil_append] at hr
                                      subst hr
                                      simp_all [precededBy, precededByAux, isWriteHeaderOk, isWriteTrailer, isSetOutTB, isEncOpenOk, isSetGeom, isReadFrame, List.countP_append, List.countP_cons, List.countP_nil]
                                    · by_cases him : env.imageAllocOk = false
                                      · simp only [h1, h2, h3, h4, h5, h6, h7, h8, h9, h10, h11, h12, h13, hnf, hav, hwh, hsw, hfc, him, if_true, if_false, ite_true, ite_false, Bool.not_eq_true, not_false_eq_true, List.append_assoc, List.cons_append, List.nil_append] at hr
                                        subst hr
                                        simp_all [precededBy, precededByAux, isWriteHeaderOk, isWriteTrailer, isSetOutTB, isEncOpenOk, isSetGeom, isReadFrame, List.countP_append, List.countP_cons, List.countP_nil]
                                      · by_cases hx1 : (mainLoop ⟨env.packetInOk, env.packetOutOk, env.frameDecodedOk⟩ env.vidIdx env.reads ⟨env.decWidth, env.decHeight, AV_PIX_FMT_YUV420P, 0⟩).exit = LoopExit.fault
                                        · simp only [h1, h2, h3, h4, h5, h6, h7, h8, h9, h10, h11, h12, h13, hnf, hav, hwh, hsw, hfc, him, hx1, if_true, if_false, ite_true, ite_false, Bool.not_eq_true, not_false_eq_true, List.append_assoc, List.cons_append, List.nil_append] at hr
                                          subst hr
                                          simp_all [precededBy, precededByAux, isWriteHeaderOk, isWriteTrailer, isSetOutTB, isEncOpenOk, isSetGeom, isReadFrame, List.countP_append, List.countP_cons, List.countP_nil]
                                        · by_cases hx2 : (mainLoop ⟨env.packetInOk, env.packetOutOk, env.frameDecodedOk⟩ env.vidIdx env.reads ⟨env.decWidth, env.decHeight, AV_PIX_FMT_YUV420P, 0⟩).exit = LoopExit.fatal
                                          · simp only [h1, h2, h3, h4, h5, h6, h7, h8, h9, h10, h11, h12, h13, hnf, hav, hwh, hsw, hfc, him, hx1, hx2, if_true, if_false, ite_true, ite_false, Bool.not_eq_true, not_false_eq_true, List.append_assoc, List.cons_append, List.nil_append] at hr
                                            subst hr
                                            simp_all [precededBy, precededByAux, isWriteHeaderOk, isWriteTrailer, isSetOutTB, isEncOpenOk, isSetGeom, isReadFrame, List.countP_append, List.countP_cons, List.countP_nil]
                                          · simp only [h1, h2, h3, h4, h5, h6, h7, h8, h9, h10, h11, h12, h13, hnf, hav, hwh, hsw, hfc, him, hx1, hx2, if_true, if_false, ite_true, ite_false, Bool.not_eq_true, not_false_eq_true, List.append_assoc, List.cons_append, List.nil_append] at hr
                                            subst hr
                                            simp_all [precededBy, precededByAux, isWriteHeaderOk, isWriteTrailer, isSetOutTB, isEncOpenOk, isSetGeom, isReadFrame, List.countP_append, List.countP_cons, List.countP_nil]
                            ·
                              by_cases hwh : env.writeHeaderOk = false
                              · simp only [h1, h2, h3, h4, h5, h6, h7, h8, h9, h10, h11, h12, h13, hnf, hwh, if_true, if_false, ite_true, ite_false, Bool.not_eq_true, not_false_eq_true, List.append_assoc, List.cons_append, List.nil_append] at hr
                                subst hr
                                simp_all [precededBy, precededByAux, isWriteHeaderOk, isWriteTrailer, isSetOutTB, isEncOpenOk, isSetGeom, isReadFrame, List.countP_append, List.countP_cons, List.countP_nil]
                              ·
                                by_cases hsw : env.swsOk = false
                                · simp only [h1, h2, h3, h4, h5, h6, h7, h8, h9, h10, h11, h12, h13, hnf, hwh, hsw, if_true, if_false, ite_true, ite_false, Bool.not_eq_true, not_false_eq_true, List.append_assoc, List.cons_append, List.nil_append] at hr
                                  subst hr
                                  simp_all [precededBy, precededByAux, isWriteHeaderOk, isWriteTrailer, isSetOutTB, isEncOpenOk, isSetGeom, isReadFrame, List.countP_append, List.countP_cons, List.countP_nil]
                                · by_cases hfc : env.frameConvertedOk = false
                                  · simp only [h1, h2, h3, h4, h5, h6, h7, h8, h9, h10, h11, h12, h13, hnf, hwh, hsw, hfc, if_true, if_false, ite_true, ite_false, Bool.not_eq_true, not_false_eq_true, List.append_assoc, List.cons_append, List.nil_append] at hr
                                    subst hr
                                    simp_all [precededBy, precededByAux, isWriteHeaderOk, isWriteTrailer, isSetOutTB, isEncOpenOk, isSetGeom, isReadFrame, List.countP_append, List.countP_cons, List.countP_nil]
                                  · by_cases him : env.imageAllocOk = false
                                    · simp only [h1, h2, h3, h4, h5, h6, h7, h8, h9, h10, h11, h12, h13, hnf, hwh, hsw, hfc, him, if_true, if_false, ite_true, ite_false, Bool.not_eq_true, not_false_eq_true, List.append_assoc, List.cons_append, List.nil_append] at hr
                                      subst hr
                                      simp_all [precededBy, precededByAux, isWriteHeaderOk, isWriteTrailer, isSetOutTB, isEncOpenOk, isSetGeom, isReadFrame, List.countP_append, List.countP_cons, List.countP_nil]
                                    · by_cases hx1 : (mainLoop ⟨env.packetInOk, env.packetOutOk, env.frameDecodedOk⟩ env.vidIdx env.reads ⟨env.decWidth, env.decHeight, AV_PIX_FMT_YUV420P, 0⟩).exit = LoopExit.fault
                                      · simp only [h1, h2, h3, h4, h5, h6, h7, h8, h9, h10, h11, h12, h13, hnf, hwh, hsw, hfc, him, hx1, if_true, if_false, ite_true, ite_false, Bool.not_eq_true, not_false_eq_true, List.append_assoc, List.cons_append, List.nil_append] at hr
                                        subst hr
                                        simp_all [precededBy, precededByAux, isWriteHeaderOk, isWriteTrailer, isSetOutTB, isEncOpenOk, isSetGeom, isReadFrame, List.countP_append, List.countP_cons, List.countP_nil]
                                      · by_cases hx2 : (mainLoop ⟨env.packetInOk, env.packetOutOk, env.frameDecodedOk⟩ env.vidIdx env.reads ⟨env.decWidth, env.decHeight, AV_PIX_FMT_YUV420P, 0⟩).exit = LoopExit.fatal
                                        · simp only [h1, h2, h3, h4, h5, h6, h7, h8, h9, h10, h11, h12, h13, hnf, hwh, hsw, hfc, him, hx1, hx2, if_true, if_false, ite_true, ite_false, Bool.not_eq_true, not_false_eq_true, List.append_assoc, List.cons_append, List.nil_append] at hr
                                          subst hr
                                          simp_all [precededBy, precededByAux, isWriteHeaderOk, isWriteTrailer, isSetOutTB, isEncOpenOk, isSetGeom, isReadFrame, List.countP_append, List.countP_cons, List.countP_nil]
                                        · simp only [h1, h2, h3, h4, h5, h6, h7, h8, h9, h10, h11, h12, h13, hnf, hwh, hsw, hfc, him, hx1, hx2, if_true, if_false, ite_true, ite_false, Bool.not_eq_true, not_false_eq_true, List.append_assoc, List.cons_append, List.nil_append] at hr
                                          subst hr
                                          simp_all [precededBy, precededByAux, isWriteHeaderOk, isWriteTrailer, isSetOutTB, isEncOpenOk, isSetGeom, isReadFrame, List.countP_append, List.countP_cons, List.countP_nil]

/-- C2: the claim asserts that every release in Teardown is a safe no-op
on a null handle and that running the release sequence twice neither
faults nor double-frees.  Both parts fail on the code.  First, line 244
executes av_freep on frame_converted data with no null test, so on the
reachable state where av_frame_alloc failed at line 161 and sws_getContext
failed at line 169 the cleanup label dereferences the null frame_converted
handle.  Second, sws_freeContext (line 243) and avformat_free_context
(line 254) do not null the pointers they free, so a second execution of
the sequence frees them again and dereferences the nulled
frame_converted. -/
theorem c2_teardown_faults_and_double_frees :
    (run envNullFrame).fault = true ∧
    (teardown (teardown tdFull).state).fault = true ∧
    (teardown (teardown tdFull).state).doubleFree = true := by decide

/-- C9: in every execution the container trailer is written only after a
successful header write: every trailer event in the trace is preceded by a
successful avformat_write_header event. -/
theorem c9_trailer_requires_header :
    ∀ env : Env, precededBy isWriteHeaderOk isWriteTrailer (run env).trace = true :=
  fun env => (run_trace_props env (run env) rfl).2.2.2.1

/-- C4: in every execution the output stream time base is assigned at most
once, any assignment is preceded by a successful encoder open, and in every
execution that reaches the transcode loop it is assigned exactly once. -/
theorem c4_out_time_base_once_after_encoder_open :
    ∀ env : Env,
      (run env).trace.countP isSetOutTB ≤ 1 ∧
      precededBy isEncOpenOk isSetOutTB (run env).trace = true ∧
      ((run env).reachedLoop = true → (run env).trace.countP isSetOutTB = 1) :=
  fun env =>
    ⟨(run_trace_props env (run env) rfl).1, (run_trace_props env (run env) rfl).2.1,
     (run_trace_props env (run env) rfl).2.2.1⟩

/-- Witness for C4: the all-success execution reaches the loop and assigns
the output time base exactly once. -/
theorem c4_witness : (run envAllOk).trace.countP isSetOutTB = 1 :=
  (c4_out_time_base_once_after_encoder_open envAllOk).2.2 (by decide)

/-- C1 as amended: a fatal decode receive, encode submit, encode receive
or packet write failure jumps to the cleanup label without writing the
trailer, but a decode submission failure exits the loop through the break
of line 192 and falls through to the trailer write of line 239 before
Teardown. -/
theorem c1_fatal_gotos_skip_trailer_but_break_writes_it :
    ∀ env : Env,
      ((run env).loopExit = LoopExit.fatal → (run env).trace.countP isWriteTrailer = 0) ∧
      ((run env).loopExit = LoopExit.broke → (run env).trace.countP isWriteTrailer = 1) :=
  fun env =>
    ⟨(run_trace_props env (run env) rfl).2.2.2.2.1,
     (run_trace_props env (run env) rfl).2.2.2.2.2.1⟩

/-- Counterexample to C1 as stated: in the execution whose single video
packet is rejected by avcodec_send_packet (result -22), a decode
submission failure occurs and the container trailer is nevertheless
written. -/
theorem c1_cx_trailer_after_decode_submit_failure :
    (run envBreak).trace.countP isSendPacketFail = 1 ∧
    (run envBreak).trace.countP isWriteTrailer = 1 := by decide

/-- Witness for C1: the execution with a fatal decode receive error writes
no trailer, and the execution with a decode submission failure writes
exactly one. -/
theorem c1_witness :
    (run envFatalRecv).trace.countP isWriteTrailer = 0 ∧
    (run envBreak).trace.countP isWriteTrailer = 1 :=
  ⟨(c1_fatal_gotos_skip_trailer_but_break_writes_it envFatalRecv).1 (by decide),
   (c1_fatal_gotos_skip_trailer_but_break_writes_it envBreak).2 (by decide)⟩

/-- C10: the converted frame geometry (width, height, pixel format) is
assigned at most once per execution, exactly once and before any read in
every execution that reaches the loop, the final converted frame carries
the encoder geometry (decoder width and height, fixed planar 4:2:0 pixel
format), and every loop iteration preserves width, height and format,
overwriting only the pts. -/
theorem c10_frame_geometry_set_once_and_loop_invariant :
    (∀ env : Env,
      (run env).trace.countP isSetGeom ≤ 1 ∧
      precededBy isSetGeom isReadFrame (run env).trace = true ∧
      ((run env).reachedLoop = true →
        (run env).trace.countP isSetGeom = 1 ∧
        (run env).frame.map FrameGeom.width = some env.decWidth ∧
        (run env).frame.map FrameGeom.height = some env.decHeight ∧
        (run env).frame.map FrameGeom.format = some AV_PIX_FMT_YUV420P)) ∧
    (∀ (flags : BufFlags) (vid : Nat) (reads : List ReadStep) (fc : FrameGeom),
      (mainLoop flags vid reads fc).frame.width = fc.width ∧
      (mainLoop flags vid reads fc).frame.height = fc.height ∧
      (mainLoop flags vid reads fc).frame.format = fc.format) := by
  constructor
  · intro env
    refine ⟨(run_trace_props env (run env) rfl).2.2.2.2.2.2.1,
      (run_trace_props env (run env) rfl).2.2.2.2.2.2.2.2.1, ?_⟩
    intro h
    refine ⟨(run_trace_props env (run env) rfl).2.2.2.2.2.2.2.1 h, ?_, ?_, ?_⟩
    · exact ((run_trace_props env (run env) rfl).2.2.2.2.2.2.2.2.2 h).1
    · exact ((run_trace_props env (run env) rfl).2.2.2.2.2.2.2.2.2 h).2.1
    · exact ((run_trace_props env (run env) rfl).2.2.2.2.2.2.2.2.2 h).2.2
  · intro flags vid reads fc
    exact ⟨mainLoop_frame_width flags vid reads fc, mainLoop_frame_height flags vid reads fc,
      mainLoop_frame_format flags vid reads fc⟩

/-- Witness for C10: the all-success execution assigns the converted frame
geometry exactly once. -/
theorem c10_witness : (run envAllOk).trace.countP isSetGeom = 1 :=
  ((c10_frame_geometry_set_once_and_loop_invariant.1 envAllOk).2.2 (by decide)).1
